import Mathlib

/-!
Verification development for the miniproj geodetic library.

The Rust sources are shallowly embedded in Lean: `f64` arithmetic is modelled
by exact real arithmetic over `ℝ`, `f64` library functions (`sin`, `atan2`,
`to_radians`, ...) by the corresponding real functions, fallible code by
`Option`/`Except`, and a Rust `panic!`/`assert!` by an `Except.error` result.
Definitions follow the source files of the repository; definitions written
from the specification text (for refinement comparisons) say so in their
doc comments.
-/

namespace Miniproj

noncomputable section

/-- Real model of `f64::to_radians`, whose Rust definition is
`self * (PI / 180.0)`. -/
def toRadians (x : ℝ) : ℝ := x * (Real.pi / 180)

/-- Real model of `f64::to_degrees`, whose Rust definition is
`self * (180.0 / PI)`. -/
def toDegrees (x : ℝ) : ℝ := x * (180 / Real.pi)

/-- Real model of `f64::atan2`: `y.atan2(x)` is the angle of the point
`(x, y)` in `(-π, π]`, computed by quadrant correction of `arctan (y / x)`. -/
def atan2 (y x : ℝ) : ℝ :=
  if 0 < x then Real.arctan (y / x)
  else if x < 0 then
    (if y < 0 then Real.arctan (y / x) - Real.pi else Real.arctan (y / x) + Real.pi)
  else if 0 < y then Real.pi / 2
  else if y < 0 then -(Real.pi / 2)
  else 0

/-- Real model of `f64::signum` (the real line has a single zero, whose sign
is taken to be `1` as for the positive IEEE zero). -/
def signum (x : ℝ) : ℝ := if x < 0 then -1 else 1

/-- Real model of `f64::trunc`: round toward zero. -/
def truncR (x : ℝ) : ℝ := if x < 0 then ((⌈x⌉ : ℤ) : ℝ) else ((⌊x⌋ : ℤ) : ℝ)

/-- Real model of `f64::fract`, whose Rust definition is `self - self.trunc()`. -/
def fractR (x : ℝ) : ℝ := x - truncR x

/-- Real model of `f64::powf` (real exponentiation). -/
def powf (x y : ℝ) : ℝ := Real.rpow x y

/-- Real model of `f64::atanh`, the inverse hyperbolic tangent. -/
def atanhR (x : ℝ) : ℝ := Real.log ((1 + x) / (1 - x)) / 2

/-! ## Ellipsoid (`miniproj-ops/src/ops/ellipsoid.rs`) -/

/-- `Ellipsoid`, with the five stored fields of the Rust struct. -/
structure Ellipsoid where
  a : ℝ
  b : ℝ
  f : ℝ
  e : ℝ
  e_squared : ℝ

namespace Ellipsoid

/-- `Ellipsoid::from_a_b`. -/
def from_a_b (a b : ℝ) : Ellipsoid :=
  let f := (a - b) / a
  let e_squared := (2 * f) - f ^ (2 : ℕ)
  { a := a, b := b, f := f, e_squared := e_squared, e := Real.sqrt e_squared }

/-- `Ellipsoid::from_a_f_inv`. -/
def from_a_f_inv (a f_inv : ℝ) : Ellipsoid :=
  let f := 1 / f_inv
  let e_squared := (2 / f_inv) - f_inv ^ (-2 : ℤ)
  { a := a, b := a - a / f_inv, f := f, e_squared := e_squared,
    e := Real.sqrt e_squared }

/-- `Ellipsoid::ny`: radius of curvature in the prime vertical. -/
def ny (E : Ellipsoid) (lat : ℝ) : ℝ :=
  E.a / Real.sqrt (1 - E.e_squared * Real.sin lat ^ (2 : ℕ))

/-- `Ellipsoid::rho`: radius of curvature in the meridian. -/
def rho (E : Ellipsoid) (lat : ℝ) : ℝ :=
  E.a * (1 - E.e_squared) / powf (1 - E.e_squared * Real.sin lat ^ (2 : ℕ)) 1.5

/-- `Ellipsoid::geocentric_to_rad`: geocentric `(x, y, z)` to
`(longitude, latitude, ellipsoid height)` in radians/metres. -/
def geocentric_to_rad (E : Ellipsoid) (x y z : ℝ) : ℝ × ℝ × ℝ :=
  let lon := atan2 y x
  let epsilon := E.e_squared / (1 - E.e_squared)
  let p := Real.sqrt (x ^ (2 : ℕ) + y ^ (2 : ℕ))
  let q := atan2 (z * E.a) (p * E.b)
  let lat := atan2 (z + epsilon * E.b * Real.sin q ^ (3 : ℕ))
      (p - E.e_squared * E.a * Real.cos q ^ (3 : ℕ))
  let h := (p / Real.cos lat) - E.ny lat
  (lon, lat, h)

/-- `Ellipsoid::rad_to_geocentric`: geographic position in radians and
ellipsoid height to geocentric `(x, y, z)`. -/
def rad_to_geocentric (E : Ellipsoid) (lon lat height : ℝ) : ℝ × ℝ × ℝ :=
  let ny := E.ny lat
  let r := ny + height
  (r * Real.cos lat * Real.cos lon,
   r * Real.cos lat * Real.sin lon,
   ((1 - E.e_squared) * ny + height) * Real.sin lat)

end Ellipsoid

/-- Written from the specification text (§4.1, claim C8): the closed-form
Bowring variant.  With `p = √(x²+y²)`, `ε = e²/(1−e²)`, `q = atan2(z·a, p·b)`,
the result is `lat = atan2(z + ε·b·sin³q, p − e²·a·cos³q)`, `lon = atan2(y, x)`
and `h = p/cos lat − ν(lat)`, returned in the library's `(lon, lat, h)` order. -/
def bowringInverseSpec (E : Ellipsoid) (x y z : ℝ) : ℝ × ℝ × ℝ :=
  let p := Real.sqrt (x ^ (2 : ℕ) + y ^ (2 : ℕ))
  let epsilon := E.e_squared / (1 - E.e_squared)
  let q := atan2 (z * E.a) (p * E.b)
  let lat := atan2 (z + epsilon * E.b * Real.sin q ^ (3 : ℕ))
      (p - E.e_squared * E.a * Real.cos q ^ (3 : ℕ))
  (atan2 y x, lat, p / Real.cos lat - E.ny lat)

/-! ## EPSG 9110 sexagesimal decoding (`miniproj-epsg-registry/src/helpers.rs`) -/

/-- `epsg_9110_to_rad`: decode a "sexagesimal DMS as decimal" angle to
radians. -/
def epsg_9110_to_rad (val : ℝ) : ℝ :=
  let sign := signum val
  let a := |val|
  let whole_deg := truncR a
  let arcmins := truncR (fractR a * 100)
  let arcsecs := fractR (fractR a * 100) * 100
  sign * toRadians (whole_deg + arcmins / 60 + arcsecs / 3600)

/-- Written from the specification text (§4.6 item 2, claim C7): with
`s = sign(v)`, `a = |v|`, `D = trunc(a)`, `M = trunc(fract(a)·100)`,
`S = fract(fract(a)·100)·100`, return `s·(D + M/60 + S/3600)·π/180`. -/
def epsg9110Spec (v : ℝ) : ℝ :=
  let s := signum v
  let a := |v|
  let D := truncR a
  let M := truncR (fractR a * 100)
  let S := fractR (fractR a * 100) * 100
  s * (D + M / 60 + S / 3600) * Real.pi / 180

/-! ## Identity projection (`miniproj-ops/src/ops/identity_projection.rs`) -/

namespace IdentityProjection

/-- `IdentityProjection::projected_to_rad`: `(x.to_radians(), y.to_radians())`. -/
def projected_to_rad (x y : ℝ) : ℝ × ℝ := (toRadians x, toRadians y)

/-- `IdentityProjection::rad_to_projected`: `(lon.to_degrees(), lat.to_degrees())`. -/
def rad_to_projected (lon lat : ℝ) : ℝ × ℝ := (toDegrees lon, toDegrees lat)

/-- `IdentityProjection::projected_to_deg`: the identity. -/
def projected_to_deg (x y : ℝ) : ℝ × ℝ := (x, y)

/-- `IdentityProjection::deg_to_projected`: the identity. -/
def deg_to_projected (lon lat : ℝ) : ℝ × ℝ := (lon, lat)

end IdentityProjection

/-! ## Theorems for claims C2, C7, C8 -/

/-- C2 (counterexample): the identity projection is not the identity on its
radian-space inverse: at `(180, 0)` the first component is `π ≠ 180`. -/
theorem identity_projection_rad_not_identity :
    IdentityProjection.projected_to_rad 180 0 ≠ (180, 0) := by
  intro h
  have h1 : toRadians 180 = 180 := congrArg Prod.fst h
  have h2 : toRadians 180 = Real.pi := by unfold toRadians; ring
  have h4 := Real.pi_lt_four
  rw [h2] at h1
  linarith

/-- C2 (amended): the degree wrappers of the identity projection are the
identity, while its radian-space functions convert between degrees and
radians (`projected_to_rad` multiplies by `π/180`, `rad_to_projected` by
`180/π`); they are not the identity. -/
theorem identity_projection_behaviour (x y : ℝ) :
    IdentityProjection.projected_to_deg x y = (x, y) ∧
    IdentityProjection.deg_to_projected x y = (x, y) ∧
    IdentityProjection.projected_to_rad x y = (toRadians x, toRadians y) ∧
    IdentityProjection.rad_to_projected x y = (toDegrees x, toDegrees y) :=
  ⟨rfl, rfl, rfl, rfl⟩

/-- C7: the EPSG-9110 decoder returns exactly
`sign(v) · (D + M/60 + S/3600) · π/180` with `D`, `M`, `S` the truncated
degree, minute and second parts of `|v|`. -/
theorem epsg_9110_matches_spec (v : ℝ) : epsg_9110_to_rad v = epsg9110Spec v := by
  unfold epsg_9110_to_rad epsg9110Spec toRadians
  ring

/-- C8: the geocentric-to-geographic conversion computes exactly the
closed-form Bowring variant stated in the specification. -/
theorem geocentric_to_rad_is_bowring (E : Ellipsoid) (x y z : ℝ) :
    E.geocentric_to_rad x y z = bowringInverseSpec E x y z := rfl

/-! ## Bounded loops

`runFor n f x` models the Rust loop `for _ in 0..n { x = f(x) }`. -/

def runFor {α : Type} : ℕ → (α → α) → α → α
  | 0, _, x => x
  | n + 1, f, x => runFor n f (f x)

theorem runFor_eq_iterate {α : Type} (f : α → α) :
    ∀ (n : ℕ) (x : α), runFor n f x = f^[n] x := by
  intro n
  induction n with
  | zero => intro x; rfl
  | succ n ih =>
    intro x
    rw [runFor, ih, ← Function.iterate_succ_apply]

/-! ## Transverse Mercator (`miniproj-ops/src/ops/transverse_mercator.rs`) -/

/-- `TransverseMercatorProjection` (EPSG method 9807): the precomputed
parameter block. -/
structure TransverseMercatorProjection where
  ellipsoid_e : ℝ
  lon_orig : ℝ
  false_e : ℝ
  false_n : ℝ
  k_orig : ℝ
  B : ℝ
  h_1 : ℝ
  h_2 : ℝ
  h_3 : ℝ
  h_4 : ℝ
  M_orig : ℝ
  h_1_ : ℝ
  h_2_ : ℝ
  h_3_ : ℝ
  h_4_ : ℝ

namespace TransverseMercatorProjection

/-- `TransverseMercatorProjection::MAX_ITERATIONS`. -/
def MAX_ITERATIONS : ℕ := 4

/-- `Projection::from_rad` for the Transverse Mercator: geographic radians to
projected coordinates. -/
def from_rad (p : TransverseMercatorProjection) (longitude latitude : ℝ) : ℝ × ℝ :=
  let Q := Real.arsinh (Real.tan latitude) -
    (p.ellipsoid_e * atanhR (p.ellipsoid_e * Real.sin latitude))
  let beta := Real.arctan (Real.sinh Q)
  let eta_0 := atanhR (Real.cos beta * Real.sin (longitude - p.lon_orig))
  let xi_0 := Real.arcsin (Real.sin beta * Real.cosh eta_0)
  let xi_1 := p.h_1 * Real.sin (2 * xi_0) * Real.cosh (2 * eta_0)
  let xi_2 := p.h_2 * Real.sin (4 * xi_0) * Real.cosh (4 * eta_0)
  let xi_3 := p.h_3 * Real.sin (6 * xi_0) * Real.cosh (6 * eta_0)
  let xi_4 := p.h_4 * Real.sin (8 * xi_0) * Real.cosh (8 * eta_0)
  let xi := xi_0 + xi_1 + xi_2 + xi_3 + xi_4
  let eta_1 := p.h_1 * Real.cos (2 * xi_0) * Real.sinh (2 * eta_0)
  let eta_2 := p.h_2 * Real.cos (4 * xi_0) * Real.sinh (4 * eta_0)
  let eta_3 := p.h_3 * Real.cos (6 * xi_0) * Real.sinh (6 * eta_0)
  let eta_4 := p.h_4 * Real.cos (8 * xi_0) * Real.sinh (8 * eta_0)
  let eta := eta_0 + eta_1 + eta_2 + eta_3 + eta_4
  (p.false_e + p.k_orig * p.B * eta,
   p.false_n + p.k_orig * (p.B * xi - p.M_orig))

/-- The `eta_` intermediate of `Projection::to_rad`. -/
def inv_eta_ (p : TransverseMercatorProjection) (easting : ℝ) : ℝ :=
  (easting - p.false_e) / (p.B * p.k_orig)

/-- The `xi_` intermediate of `Projection::to_rad`. -/
def inv_xi_ (p : TransverseMercatorProjection) (northing : ℝ) : ℝ :=
  ((northing - p.false_n) + p.k_orig * p.M_orig) / (p.B * p.k_orig)

/-- The `xi_0_` intermediate of `Projection::to_rad`. -/
def inv_xi_0_ (p : TransverseMercatorProjection) (easting northing : ℝ) : ℝ :=
  let eta_ := p.inv_eta_ easting
  let xi_ := p.inv_xi_ northing
  let xi_1_ := p.h_1_ * Real.sin (2 * xi_) * Real.cosh (2 * eta_)
  let xi_2_ := p.h_2_ * Real.sin (4 * xi_) * Real.cosh (4 * eta_)
  let xi_3_ := p.h_3_ * Real.sin (6 * xi_) * Real.cosh (6 * eta_)
  let xi_4_ := p.h_4_ * Real.sin (8 * xi_) * Real.cosh (8 * eta_)
  xi_ - (xi_1_ + xi_2_ + xi_3_ + xi_4_)

/-- The `eta_0_` intermediate of `Projection::to_rad`. -/
def inv_eta_0_ (p : TransverseMercatorProjection) (easting northing : ℝ) : ℝ :=
  let eta_ := p.inv_eta_ easting
  let xi_ := p.inv_xi_ northing
  let eta_1_ := p.h_1_ * Real.cos (2 * xi_) * Real.sinh (2 * eta_)
  let eta_2_ := p.h_2_ * Real.cos (4 * xi_) * Real.sinh (4 * eta_)
  let eta_3_ := p.h_3_ * Real.cos (6 * xi_) * Real.sinh (6 * eta_)
  let eta_4_ := p.h_4_ * Real.cos (8 * xi_) * Real.sinh (8 * eta_)
  eta_ - (eta_1_ + eta_2_ + eta_3_ + eta_4_)

/-- The `beta_` intermediate of `Projection::to_rad`. -/
def inv_beta_ (p : TransverseMercatorProjection) (easting northing : ℝ) : ℝ :=
  Real.arcsin (Real.sin (p.inv_xi_0_ easting northing) /
    Real.cosh (p.inv_eta_0_ easting northing))

/-- The `Q_` intermediate of `Projection::to_rad`. -/
def inv_Q_ (p : TransverseMercatorProjection) (easting northing : ℝ) : ℝ :=
  Real.arsinh (Real.tan (p.inv_beta_ easting northing))

/-- The body of the `Q__` fixed-point recurrence of `Projection::to_rad`:
`Q__ = Q_ + e·atanh(e·tanh(Q__))`. -/
def Q_step (p : TransverseMercatorProjection) (Q_ q : ℝ) : ℝ :=
  Q_ + (p.ellipsoid_e * atanhR (p.ellipsoid_e * Real.tanh q))

/-- `Projection::to_rad` for the Transverse Mercator: projected coordinates
to geographic radians.  The fixed-point `Q__` recurrence is seeded with
`Q_ + e·atanh(e·tanh(Q_))` and then run `MAX_ITERATIONS` times. -/
def to_rad (p : TransverseMercatorProjection) (easting northing : ℝ) : ℝ × ℝ :=
  let beta_ := p.inv_beta_ easting northing
  let Q_ := p.inv_Q_ easting northing
  let Q__ := runFor MAX_ITERATIONS (p.Q_step Q_) (p.Q_step Q_ Q_)
  (p.lon_orig + Real.arcsin (Real.tanh (p.inv_eta_0_ easting northing) / Real.cos beta_),
   Real.arctan (Real.sinh Q__))

/-- `CoordTransform::to_deg` default body. -/
def to_deg (p : TransverseMercatorProjection) (x y : ℝ) : ℝ × ℝ :=
  let tmp := p.to_rad x y
  (toDegrees tmp.1, toDegrees tmp.2)

/-- `CoordTransform::from_deg` default body. -/
def from_deg (p : TransverseMercatorProjection) (lon lat : ℝ) : ℝ × ℝ :=
  p.from_rad (toRadians lon) (toRadians lat)

end TransverseMercatorProjection

/-! ## Lambert Conic Conformal (`miniproj-ops/src/ops/lambert_conic_conformal.rs`) -/

/-- The latitude recurrence shared by the loop bodies of both Lambert Conic
Conformal inverses: `φ ↦ π/2 − 2·atan(t·((1−e·sinφ)/(1+e·sinφ))^(e/2))`. -/
def lccPhiStep (e t phi : ℝ) : ℝ :=
  Real.pi / 2 - 2 *
    Real.arctan (t * powf ((1 - e * Real.sin phi) / (1 + e * Real.sin phi)) (e / 2))

/-- `LambertConic2SPProjection` (EPSG method 9802): the precomputed
parameter block. -/
structure LambertConic2SPProjection where
  ellipsoid_e : ℝ
  ellipsoid_a : ℝ
  lon_orig : ℝ
  lat_orig : ℝ
  false_e : ℝ
  false_n : ℝ
  n : ℝ
  r_F : ℝ
  F : ℝ

namespace LambertConic2SPProjection

/-- `LambertConic2SPProjection::MAX_ITERATIONS`. -/
def MAX_ITERATIONS : ℕ := 4

/-- `Projection::rad_to_projected` for Lambert Conic Conformal 2SP. -/
def rad_to_projected (p : LambertConic2SPProjection) (longitude latitude : ℝ) : ℝ × ℝ :=
  let t := Real.tan (Real.pi / 4 - latitude / 2) /
    powf ((1 - p.ellipsoid_e * Real.sin latitude) / (1 + p.ellipsoid_e * Real.sin latitude))
      (p.ellipsoid_e / 2)
  let theta := p.n * (longitude - p.lon_orig)
  let r := p.ellipsoid_a * p.F * powf t p.n
  (p.false_e + r * Real.sin theta,
   p.false_n + p.r_F - r * Real.cos theta)

/-- The `theta_` intermediate of `Projection::projected_to_rad`. -/
def inv_theta_ (p : LambertConic2SPProjection) (easting northing : ℝ) : ℝ :=
  atan2 (signum p.n * (easting - p.false_e))
    (signum p.n * (p.r_F - (northing - p.false_n)))

/-- The `r_` intermediate of `Projection::projected_to_rad`. -/
def inv_r_ (p : LambertConic2SPProjection) (easting northing : ℝ) : ℝ :=
  signum p.n *
    Real.sqrt ((easting - p.false_e) ^ (2 : ℕ) +
      (p.r_F - (northing - p.false_n)) ^ (2 : ℕ))

/-- The `t_` intermediate of `Projection::projected_to_rad`. -/
def inv_t_ (p : LambertConic2SPProjection) (easting northing : ℝ) : ℝ :=
  powf (p.inv_r_ easting northing / (p.ellipsoid_a * p.F)) (1 / p.n)

/-- `Projection::projected_to_rad` for Lambert Conic Conformal 2SP; the `φ`
fixed-point recurrence is seeded with `π/2 − 2·atan(t_)` and run
`MAX_ITERATIONS` times. -/
def projected_to_rad (p : LambertConic2SPProjection) (easting northing : ℝ) : ℝ × ℝ :=
  let t_ := p.inv_t_ easting northing
  let phi := runFor MAX_ITERATIONS (lccPhiStep p.ellipsoid_e t_)
    (Real.pi / 2 - 2 * Real.arctan t_)
  (p.inv_theta_ easting northing / p.n + p.lon_orig, phi)

/-- `Projection::projected_to_deg` default body. -/
def projected_to_deg (p : LambertConic2SPProjection) (x y : ℝ) : ℝ × ℝ :=
  let tmp := p.projected_to_rad x y
  (toDegrees tmp.1, toDegrees tmp.2)

/-- `Projection::deg_to_projected` default body. -/
def deg_to_projected (p : LambertConic2SPProjection) (lon lat : ℝ) : ℝ × ℝ :=
  p.rad_to_projected (toRadians lon) (toRadians lat)

end LambertConic2SPProjection

/-- `LambertConic1SPAProjection` (EPSG method 9801): the precomputed
parameter block. -/
structure LambertConic1SPAProjection where
  false_e : ℝ
  false_n : ℝ
  r_O : ℝ
  lon_O : ℝ
  n : ℝ
  t_r_fac : ℝ
  ellipsoid_e : ℝ

namespace LambertConic1SPAProjection

/-- `LambertConic1SPAProjection::MAX_ITERATIONS`. -/
def MAX_ITERATIONS : ℕ := 4

/-- The `theta_` intermediate of `Projection::projected_to_rad`. -/
def inv_theta_ (p : LambertConic1SPAProjection) (x y : ℝ) : ℝ :=
  atan2 (signum p.n * (x - p.false_e))
    (signum p.n * (p.r_O - (y - p.false_n)))

/-- The `r_` intermediate of `Projection::projected_to_rad`. -/
def inv_r_ (p : LambertConic1SPAProjection) (x y : ℝ) : ℝ :=
  signum p.n *
    Real.sqrt ((x - p.false_e) ^ (2 : ℕ) + (p.r_O - (y - p.false_n)) ^ (2 : ℕ))

/-- The `t_` intermediate of `Projection::projected_to_rad`. -/
def inv_t_ (p : LambertConic1SPAProjection) (x y : ℝ) : ℝ :=
  powf (p.inv_r_ x y / p.t_r_fac) (1 / p.n)

/-- `Projection::projected_to_rad` for Lambert Conic Conformal 1SP (A); the
`φ` fixed-point recurrence is seeded with `π/2 − 2·atan(t_)` and run
`MAX_ITERATIONS` times. -/
def projected_to_rad (p : LambertConic1SPAProjection) (x y : ℝ) : ℝ × ℝ :=
  let t_ := p.inv_t_ x y
  let phi := runFor MAX_ITERATIONS (lccPhiStep p.ellipsoid_e t_)
    (Real.pi / 2 - 2 * Real.arctan t_)
  (p.inv_theta_ x y / p.n + p.lon_O, phi)

/-- `Projection::rad_to_projected` for Lambert Conic Conformal 1SP (A). -/
def rad_to_projected (p : LambertConic1SPAProjection) (lon lat : ℝ) : ℝ × ℝ :=
  let t := Real.tan (Real.pi / 4 - lat / 2) /
    powf ((1 - p.ellipsoid_e * Real.sin lat) / (1 + p.ellipsoid_e * Real.sin lat))
      (p.ellipsoid_e / 2)
  let r := p.t_r_fac * powf t p.n
  let theta := p.n * (lon - p.lon_O)
  (p.false_e + r * Real.sin theta,
   p.false_n + p.r_O - r * Real.cos theta)

/-- `Projection::projected_to_deg` default body. -/
def projected_to_deg (p : LambertConic1SPAProjection) (x y : ℝ) : ℝ × ℝ :=
  let tmp := p.projected_to_rad x y
  (toDegrees tmp.1, toDegrees tmp.2)

/-- `Projection::deg_to_projected` default body. -/
def deg_to_projected (p : LambertConic1SPAProjection) (lon lat : ℝ) : ℝ × ℝ :=
  p.rad_to_projected (toRadians lon) (toRadians lat)

end LambertConic1SPAProjection

/-! ## Stereographic projections (`miniproj-ops/src/ops/stereographic.rs`) -/

/-- `PolarStereographicAParams`: the raw parameter record (EPSG method 9810). -/
structure PolarStereographicAParams where
  lon_orig : ℝ
  lat_orig : ℝ
  k_orig : ℝ
  false_e : ℝ
  false_n : ℝ

/-- `PolarStereographicAProjection` (EPSG method 9810): the precomputed
parameter block. -/
structure PolarStereographicAProjection where
  t_rho_factor : ℝ
  phi_2_chi_sin_summand_factor : ℝ
  phi_4_chi_sin_summand_factor : ℝ
  phi_6_chi_sin_summand_factor : ℝ
  phi_8_chi_sin_summand_factor : ℝ
  lat_orig : ℝ
  lon_orig : ℝ
  false_e : ℝ
  false_n : ℝ
  ell_e : ℝ

namespace PolarStereographicAProjection

/-- `Projection::rad_to_projected` for Polar Stereographic A, dispatching on
`lat_orig < 0` between the north- and south-pole branches. -/
def rad_to_projected (p : PolarStereographicAProjection) (longitude latitude : ℝ) : ℝ × ℝ :=
  if p.lat_orig < 0 then
    let t := Real.tan (Real.pi / 4 - latitude / 2) *
      powf ((1 + p.ell_e * Real.sin latitude) / (1 - p.ell_e * Real.sin latitude))
        (p.ell_e / 2)
    let rho := t / p.t_rho_factor
    (p.false_e + rho * Real.sin (longitude - p.lon_orig),
     p.false_n - rho * Real.cos (longitude - p.lon_orig))
  else
    let t := Real.tan (Real.pi / 4 + latitude / 2) /
      powf ((1 + p.ell_e * Real.sin latitude) / (1 - p.ell_e * Real.sin latitude))
        (p.ell_e / 2)
    let rho := t / p.t_rho_factor
    (p.false_e + rho * Real.sin (longitude - p.lon_orig),
     p.false_n + rho * Real.cos (longitude - p.lon_orig))

/-- `Projection::projected_to_rad` for Polar Stereographic A (series inverse,
no iteration). -/
def projected_to_rad (p : PolarStereographicAProjection) (easting northing : ℝ) : ℝ × ℝ :=
  let rho_ := Real.sqrt ((easting - p.false_e) ^ (2 : ℕ) +
    (northing - p.false_n) ^ (2 : ℕ))
  let t_ := rho_ * p.t_rho_factor
  let chi :=
    if p.lat_orig < 0 then Real.pi / 2 - 2 * Real.arctan t_
    else 2 * Real.arctan t_ - Real.pi / 2
  let phi := chi
    + p.phi_2_chi_sin_summand_factor * Real.sin (2 * chi)
    + p.phi_4_chi_sin_summand_factor * Real.sin (4 * chi)
    + p.phi_6_chi_sin_summand_factor * Real.sin (6 * chi)
    + p.phi_8_chi_sin_summand_factor * Real.sin (8 * chi)
  let lambda :=
    if p.lat_orig < 0 then
      p.lon_orig + atan2 (easting - p.false_e) (p.false_n - northing)
    else
      p.lon_orig + atan2 (easting - p.false_e) (northing - p.false_n)
  (lambda, phi)

/-- `Projection::projected_to_deg` default body. -/
def projected_to_deg (p : PolarStereographicAProjection) (x y : ℝ) : ℝ × ℝ :=
  let tmp := p.projected_to_rad x y
  (toDegrees tmp.1, toDegrees tmp.2)

/-- `Projection::deg_to_projected` default body. -/
def deg_to_projected (p : PolarStereographicAProjection) (lon lat : ℝ) : ℝ × ℝ :=
  p.rad_to_projected (toRadians lon) (toRadians lat)

end PolarStereographicAProjection

/-- `ObliqueStereographicParams`: the raw parameter record (EPSG method 9809). -/
structure ObliqueStereographicParams where
  lon_orig : ℝ
  lat_orig : ℝ
  k_orig : ℝ
  false_e : ℝ
  false_n : ℝ

namespace ObliqueStereographicParams

/-- `ObliqueStereographicParams::new`, which executes
`assert!(lat_orig > 0f64)` before constructing the record; an assertion
failure is modelled as an `Except.error`. -/
def new (lon_orig lat_orig k_orig false_e false_n : ℝ) :
    Except String ObliqueStereographicParams :=
  if 0 < lat_orig then
    .ok { lat_orig := lat_orig, lon_orig := lon_orig, k_orig := k_orig,
          false_e := false_e, false_n := false_n }
  else
    .error "assertion failed: lat_orig > 0f64"

end ObliqueStereographicParams

/-- `ObliqueStereographicProjection` (EPSG method 9809): the precomputed
parameter block. -/
structure ObliqueStereographicProjection where
  false_e : ℝ
  false_n : ℝ
  chi_O : ℝ
  R_k_O_2 : ℝ
  c : ℝ
  ellipsoid_e : ℝ
  ellipsoid_e_sq : ℝ
  n : ℝ
  lon_orig : ℝ
  g : ℝ
  h : ℝ

namespace ObliqueStereographicProjection

/-- `ObliqueStereographicProjection::MAX_ITERATIONS`. -/
def MAX_ITERATIONS : ℕ := 4

/-- `ObliqueStereographicProjection::new`: precompute the parameter block
from the ellipsoid and the validated parameters. -/
def new (ell : Ellipsoid) (params : ObliqueStereographicParams) :
    ObliqueStereographicProjection :=
  let rho_O := ell.rho params.lat_orig
  let ny_O := ell.ny params.lat_orig
  let R := Real.sqrt (rho_O * ny_O)
  let n := Real.sqrt (1 +
    ((ell.e_squared * Real.cos params.lat_orig ^ (4 : ℕ)) / (1 - ell.e_squared)))
  let S_1 := (1 + Real.sin params.lat_orig) / (1 - Real.sin params.lat_orig)
  let S_2 := (1 - ell.e * Real.sin params.lat_orig) / (1 + ell.e * Real.sin params.lat_orig)
  let w_1 := powf (S_1 * powf S_2 ell.e) n
  let chi_OO_sin := (w_1 - 1) / (w_1 + 1)
  let c := (n + Real.sin params.lat_orig) * (1 - chi_OO_sin) /
    ((n - Real.sin params.lat_orig) * (1 + chi_OO_sin))
  let w_2 := c * w_1
  let chi_O := Real.arcsin ((w_2 - 1) / (w_2 + 1))
  let g := 2 * R * params.k_orig * Real.tan (Real.pi / 4 - chi_O / 2)
  let h := 4 * R * params.k_orig * Real.tan chi_O + g
  { false_e := params.false_e, false_n := params.false_n, chi_O := chi_O,
    R_k_O_2 := R * params.k_orig * 2, c := c, ellipsoid_e := ell.e,
    ellipsoid_e_sq := ell.e_squared, n := n, lon_orig := params.lon_orig,
    g := g, h := h }

/-- The `i` intermediate of `Projection::projected_to_rad`. -/
def inv_i (p : ObliqueStereographicProjection) (x y : ℝ) : ℝ :=
  atan2 (x - p.false_e) (p.h + (y - p.false_n))

/-- The `j` intermediate of `Projection::projected_to_rad`. -/
def inv_j (p : ObliqueStereographicProjection) (x y : ℝ) : ℝ :=
  atan2 (x - p.false_e) (p.g - (y - p.false_n)) - p.inv_i x y

/-- The `chi` intermediate of `Projection::projected_to_rad`. -/
def inv_chi (p : ObliqueStereographicProjection) (x y : ℝ) : ℝ :=
  p.chi_O + 2 * Real.arctan
    (((y - p.false_n) - (x - p.false_e) * Real.tan (p.inv_j x y / 2)) / p.R_k_O_2)

/-- The `psi` intermediate of `Projection::projected_to_rad`. -/
def inv_psi (p : ObliqueStereographicProjection) (x y : ℝ) : ℝ :=
  0.5 * Real.log ((1 + Real.sin (p.inv_chi x y)) /
    (p.c * (1 - Real.sin (p.inv_chi x y)))) / p.n

/-- The body of the Newton `phi` recurrence of `Projection::projected_to_rad`:
`φ = φ − (ψ_ − ψ)·cosφ·(1 − e²·sin²φ)/(1 − e²)` with
`ψ_ = ln(tan(φ/2 + π/4)·((1 − e·sinφ)/(1 + e·sinφ))^(e/2))`. -/
def phiStep (p : ObliqueStereographicProjection) (psi phi : ℝ) : ℝ :=
  let psi_ := Real.log (Real.tan (phi / 2 + Real.pi / 4) *
    powf ((1 - p.ellipsoid_e * Real.sin phi) / (1 + p.ellipsoid_e * Real.sin phi))
      (p.ellipsoid_e / 2))
  phi - (psi_ - psi) * Real.cos phi * (1 - p.ellipsoid_e_sq * Real.sin phi ^ (2 : ℕ)) /
    (1 - p.ellipsoid_e_sq)

/-- `Projection::projected_to_rad` for the Oblique Stereographic; the Newton
`phi` recurrence is seeded with `2·atan(exp ψ) − π/2` and run
`MAX_ITERATIONS` times. -/
def projected_to_rad (p : ObliqueStereographicProjection) (x y : ℝ) : ℝ × ℝ :=
  let psi := p.inv_psi x y
  let phi := runFor MAX_ITERATIONS (p.phiStep psi)
    (2 * Real.arctan (Real.exp psi) - Real.pi / 2)
  let DeltaLambda := p.inv_j x y + 2 * p.inv_i x y
  (DeltaLambda / p.n + p.lon_orig, phi)

/-- `Projection::rad_to_projected` for the Oblique Stereographic. -/
def rad_to_projected (p : ObliqueStereographicProjection) (lon lat : ℝ) : ℝ × ℝ :=
  let S_a := (1 + Real.sin lat) / (1 - Real.sin lat)
  let S_b := (1 - p.ellipsoid_e * Real.sin lat) / (1 + p.ellipsoid_e * Real.sin lat)
  let DeltaLambda := p.n * (lon - p.lon_orig)
  let w := p.c * powf (S_a * powf S_b p.ellipsoid_e) p.n
  let chi := Real.arcsin ((w - 1) / (w + 1))
  let B := 1 + Real.sin chi * Real.sin p.chi_O +
    Real.cos chi * Real.cos p.chi_O * Real.cos DeltaLambda
  (p.false_e + p.R_k_O_2 * Real.cos chi * Real.sin DeltaLambda / B,
   p.false_n + p.R_k_O_2 *
     (Real.sin chi * Real.cos p.chi_O -
      Real.cos chi * Real.sin p.chi_O * Real.cos DeltaLambda) / B)

/-- `Projection::projected_to_deg` default body. -/
def projected_to_deg (p : ObliqueStereographicProjection) (x y : ℝ) : ℝ × ℝ :=
  let tmp := p.projected_to_rad x y
  (toDegrees tmp.1, toDegrees tmp.2)

/-- `Projection::deg_to_projected` default body. -/
def deg_to_projected (p : ObliqueStereographicProjection) (lon lat : ℝ) : ℝ × ℝ :=
  p.rad_to_projected (toRadians lon) (toRadians lat)

end ObliqueStereographicProjection

/-! ## Popular Visualisation Pseudo-Mercator
(`miniproj-ops/src/ops/popvis_pseudo_mercator.rs`) -/

/-- `PopVisPseudoMercatorProjection` (EPSG method 1024). -/
structure PopVisPseudoMercatorProjection where
  false_e : ℝ
  false_n : ℝ
  ellipsoid_a : ℝ
  lon_orig : ℝ

namespace PopVisPseudoMercatorProjection

/-- `Projection::rad_to_projected` for the Pseudo-Mercator. -/
def rad_to_projected (p : PopVisPseudoMercatorProjection) (longitude latitude : ℝ) : ℝ × ℝ :=
  (p.false_e + p.ellipsoid_a * (longitude - p.lon_orig),
   p.false_n + p.ellipsoid_a * Real.log (Real.tan (Real.pi / 4 + latitude / 2)))

/-- `Projection::projected_to_rad` for the Pseudo-Mercator. -/
def projected_to_rad (p : PopVisPseudoMercatorProjection) (easting northing : ℝ) : ℝ × ℝ :=
  let D := (p.false_n - northing) / p.ellipsoid_a
  (((easting - p.false_e) / p.ellipsoid_a) + p.lon_orig,
   Real.pi / 2 - 2 * Real.arctan (Real.exp D))

/-- `Projection::projected_to_deg` default body. -/
def projected_to_deg (p : PopVisPseudoMercatorProjection) (x y : ℝ) : ℝ × ℝ :=
  let tmp := p.projected_to_rad x y
  (toDegrees tmp.1, toDegrees tmp.2)

/-- `Projection::deg_to_projected` default body. -/
def deg_to_projected (p : PopVisPseudoMercatorProjection) (lon lat : ℝ) : ℝ × ℝ :=
  p.rad_to_projected (toRadians lon) (toRadians lat)

end PopVisPseudoMercatorProjection

/-! ## Albers Equal Area (`miniproj-ops/src/methods/albers_equal_area.rs`) -/

/-- `AlbersEqualAreaProjection` (EPSG method 9822). -/
structure AlbersEqualAreaProjection where
  false_e : ℝ
  false_n : ℝ
  lon_orig : ℝ
  ellipsoid_e : ℝ
  ellipsoid_e_sq : ℝ
  ellipsoid_a : ℝ
  C : ℝ
  n : ℝ
  rho_O : ℝ
  beta_fac_sin2 : ℝ
  beta_fac_sin4 : ℝ
  beta_fac_sin6 : ℝ

namespace AlbersEqualAreaProjection

/-- `AlbersEqualAreaProjection::alpha`. -/
def alpha (e_sq phi e : ℝ) : ℝ :=
  (1 - e_sq) *
    ((Real.sin phi / (1 - e_sq * Real.sin phi ^ (2 : ℕ)))
      - (1 / (2 * e)) * Real.log ((1 - e * Real.sin phi) / (1 + e * Real.sin phi)))

/-- `Projection::rad_to_projected` for Albers Equal Area. -/
def rad_to_projected (p : AlbersEqualAreaProjection) (longitude latitude : ℝ) : ℝ × ℝ :=
  let a := alpha p.ellipsoid_e_sq latitude p.ellipsoid_e
  let theta := p.n * (longitude - p.lon_orig)
  let rho := (p.ellipsoid_a * Real.sqrt (p.C - p.n * a)) / p.n
  (p.false_e + (rho * Real.sin theta),
   p.false_n + p.rho_O - (rho * Real.cos theta))

/-- `Projection::projected_to_rad` for Albers Equal Area (series inverse,
no iteration). -/
def projected_to_rad (p : AlbersEqualAreaProjection) (easting northing : ℝ) : ℝ × ℝ :=
  let theta_ := atan2 ((easting - p.false_e) * signum p.n)
    ((p.rho_O - (northing - p.false_n)) * signum p.n)
  let rho_ := Real.sqrt ((easting - p.false_e) ^ (2 : ℕ) +
    (p.rho_O - (northing - p.false_n)) ^ (2 : ℕ))
  let alpha_ := (p.C - (rho_ ^ (2 : ℕ) * p.n ^ (2 : ℕ) / p.ellipsoid_a ^ (2 : ℕ))) / p.n
  let beta_ := Real.arcsin (alpha_ /
    (1 - ((1 - p.ellipsoid_e_sq) / (2 * p.ellipsoid_e)) *
      Real.log ((1 - p.ellipsoid_e) / (1 + p.ellipsoid_e))))
  let lat := beta_
    + Real.sin (2 * beta_) * p.beta_fac_sin2
    + Real.sin (4 * beta_) * p.beta_fac_sin4
    + Real.sin (6 * beta_) * p.beta_fac_sin6
  let lon := p.lon_orig + theta_ / p.n
  (lon, lat)

/-- `Projection::projected_to_deg` default body. -/
def projected_to_deg (p : AlbersEqualAreaProjection) (x y : ℝ) : ℝ × ℝ :=
  let tmp := p.projected_to_rad x y
  (toDegrees tmp.1, toDegrees tmp.2)

/-- `Projection::deg_to_projected` default body. -/
def deg_to_projected (p : AlbersEqualAreaProjection) (lon lat : ℝ) : ℝ × ℝ :=
  p.rad_to_projected (toRadians lon) (toRadians lat)

end AlbersEqualAreaProjection

/-! ## Lambert Azimuthal Equal Area
(`miniproj-ops/src/ops/lambert_azimuthal_equal_area.rs`) -/

/-- `LambertAzimuthalEqualAreaProjection` (EPSG method 9820). -/
structure LambertAzimuthalEqualAreaProjection where
  lon_orig : ℝ
  false_e : ℝ
  false_n : ℝ
  ellipsoid_e : ℝ
  ellipsoid_e_squared : ℝ
  q_P : ℝ
  beta_O : ℝ
  R_q : ℝ
  D : ℝ

namespace LambertAzimuthalEqualAreaProjection

/-- `Projection::rad_to_projected` for Lambert Azimuthal Equal Area. -/
def rad_to_projected (p : LambertAzimuthalEqualAreaProjection)
    (longitude latitude : ℝ) : ℝ × ℝ :=
  let q := (1 - p.ellipsoid_e_squared) *
    ((Real.sin latitude / (1 - p.ellipsoid_e_squared * Real.sin latitude ^ (2 : ℕ)))
      - ((0.5 / p.ellipsoid_e) *
        Real.log ((1 - p.ellipsoid_e * Real.sin latitude) /
          (1 + p.ellipsoid_e * Real.sin latitude))))
  let beta := Real.arcsin (q / p.q_P)
  let B := p.R_q * Real.sqrt (2 /
    (1 + Real.sin p.beta_O * Real.sin beta +
      (Real.cos p.beta_O * Real.cos beta * Real.cos (longitude - p.lon_orig))))
  (p.false_e + ((B * p.D) * (Real.cos beta * Real.sin (longitude - p.lon_orig))),
   p.false_n + (B / p.D) *
     ((Real.cos p.beta_O * Real.sin beta) -
      (Real.sin p.beta_O * Real.cos beta * Real.cos (longitude - p.lon_orig))))

/-- `Projection::projected_to_rad` for Lambert Azimuthal Equal Area (series
inverse, no iteration); note the source computes `(beta_ + 6.0).sin()` in the
last series term. -/
def projected_to_rad (p : LambertAzimuthalEqualAreaProjection)
    (easting northing : ℝ) : ℝ × ℝ :=
  let rho := Real.sqrt (((easting - p.false_e) / p.D) ^ (2 : ℕ) +
    (p.D * (northing - p.false_n)) ^ (2 : ℕ))
  let C := 2 * Real.arcsin (rho / 2 / p.R_q)
  let beta_ := Real.arcsin ((Real.cos C * Real.sin p.beta_O) +
    ((p.D * (northing - p.false_n) * Real.sin C * Real.cos p.beta_O) / rho))
  (p.lon_orig + atan2 ((easting - p.false_e) * Real.sin C)
      (p.D * rho * Real.cos p.beta_O * Real.cos C -
        p.D ^ (2 : ℕ) * (northing - p.false_n) * Real.sin p.beta_O * Real.sin C),
   beta_
     + ((p.ellipsoid_e_squared / 3 +
          (31 / 180) * p.ellipsoid_e_squared ^ (2 : ℕ) +
          (517 / 5040) * p.ellipsoid_e_squared ^ (3 : ℕ)) * Real.sin (beta_ * 2)
        + ((23 / 360) * p.ellipsoid_e_squared ^ (2 : ℕ) +
           (251 / 3780) * p.ellipsoid_e_squared ^ (3 : ℕ)) * Real.sin (beta_ * 4)
        + (761 / 45360) * p.ellipsoid_e_squared ^ (3 : ℕ) * Real.sin (beta_ + 6)))

/-- `Projection::projected_to_deg` default body. -/
def projected_to_deg (p : LambertAzimuthalEqualAreaProjection) (x y : ℝ) : ℝ × ℝ :=
  let tmp := p.projected_to_rad x y
  (toDegrees tmp.1, toDegrees tmp.2)

/-- `Projection::deg_to_projected` default body. -/
def deg_to_projected (p : LambertAzimuthalEqualAreaProjection) (lon lat : ℝ) : ℝ × ℝ :=
  p.rad_to_projected (toRadians lon) (toRadians lat)

end LambertAzimuthalEqualAreaProjection

/-! ## The polymorphic projection handle (`miniproj-ops/src/types.rs`,
`miniproj-ops/src/methods/mod.rs`)

The library erases the concrete family behind a `&dyn Projection` handle;
the possible pointees are the eight families plus the identity projection. -/

/-- A `&dyn Projection` handle: one of the eight projection families or the
identity projection. -/
inductive ProjHandle where
  | identity
  | transverseMercator (p : TransverseMercatorProjection)
  | lambertAzimuthalEqualArea (p : LambertAzimuthalEqualAreaProjection)
  | lambertConic2SP (p : LambertConic2SPProjection)
  | lambertConic1SPA (p : LambertConic1SPAProjection)
  | polarStereographicA (p : PolarStereographicAProjection)
  | obliqueStereographic (p : ObliqueStereographicProjection)
  | popVisPseudoMercator (p : PopVisPseudoMercatorProjection)
  | albersEqualArea (p : AlbersEqualAreaProjection)

namespace ProjHandle

/-- Dynamic dispatch of `Projection::projected_to_rad` (named `to_rad` in the
Transverse Mercator source file). -/
def projected_to_rad : ProjHandle → ℝ → ℝ → ℝ × ℝ
  | .identity => IdentityProjection.projected_to_rad
  | .transverseMercator p => p.to_rad
  | .lambertAzimuthalEqualArea p => p.projected_to_rad
  | .lambertConic2SP p => p.projected_to_rad
  | .lambertConic1SPA p => p.projected_to_rad
  | .polarStereographicA p => p.projected_to_rad
  | .obliqueStereographic p => p.projected_to_rad
  | .popVisPseudoMercator p => p.projected_to_rad
  | .albersEqualArea p => p.projected_to_rad

/-- Dynamic dispatch of `Projection::rad_to_projected` (named `from_rad` in
the Transverse Mercator source file). -/
def rad_to_projected : ProjHandle → ℝ → ℝ → ℝ × ℝ
  | .identity => IdentityProjection.rad_to_projected
  | .transverseMercator p => p.from_rad
  | .lambertAzimuthalEqualArea p => p.rad_to_projected
  | .lambertConic2SP p => p.rad_to_projected
  | .lambertConic1SPA p => p.rad_to_projected
  | .polarStereographicA p => p.rad_to_projected
  | .obliqueStereographic p => p.rad_to_projected
  | .popVisPseudoMercator p => p.rad_to_projected
  | .albersEqualArea p => p.rad_to_projected

/-- Dynamic dispatch of `Projection::projected_to_deg` (named `to_deg` in the
Transverse Mercator source file); the identity projection overrides the trait
default. -/
def projected_to_deg : ProjHandle → ℝ → ℝ → ℝ × ℝ
  | .identity => IdentityProjection.projected_to_deg
  | .transverseMercator p => p.to_deg
  | .lambertAzimuthalEqualArea p => p.projected_to_deg
  | .lambertConic2SP p => p.projected_to_deg
  | .lambertConic1SPA p => p.projected_to_deg
  | .polarStereographicA p => p.projected_to_deg
  | .obliqueStereographic p => p.projected_to_deg
  | .popVisPseudoMercator p => p.projected_to_deg
  | .albersEqualArea p => p.projected_to_deg

/-- Dynamic dispatch of `Projection::deg_to_projected` (named `from_deg` in
the Transverse Mercator source file); the identity projection overrides the
trait default. -/
def deg_to_projected : ProjHandle → ℝ → ℝ → ℝ × ℝ
  | .identity => IdentityProjection.deg_to_projected
  | .transverseMercator p => p.from_deg
  | .lambertAzimuthalEqualArea p => p.deg_to_projected
  | .lambertConic2SP p => p.deg_to_projected
  | .lambertConic1SPA p => p.deg_to_projected
  | .polarStereographicA p => p.deg_to_projected
  | .obliqueStereographic p => p.deg_to_projected
  | .popVisPseudoMercator p => p.deg_to_projected
  | .albersEqualArea p => p.deg_to_projected

end ProjHandle

theorem toDegrees_toRadians (a : ℝ) : toDegrees (toRadians a) = a := by
  have h : Real.pi ≠ 0 := Real.pi_ne_zero
  unfold toDegrees toRadians
  field_simp

/-- C5: for every projection handle exposed by the library, the degree-typed
wrappers agree exactly with the radian functions composed with unit
conversion: `deg_to_projected x y = rad_to_projected (x·π/180) (y·π/180)`
and `projected_to_deg = toDegrees ∘ projected_to_rad` (componentwise). -/
theorem degree_wrappers_exact (P : ProjHandle) (x y : ℝ) :
    P.deg_to_projected x y =
      P.rad_to_projected (x * (Real.pi / 180)) (y * (Real.pi / 180)) ∧
    P.projected_to_deg x y =
      (toDegrees (P.projected_to_rad x y).1, toDegrees (P.projected_to_rad x y).2) := by
  cases P with
  | identity =>
    constructor
    · show (x, y) = (toDegrees (toRadians x), toDegrees (toRadians y))
      rw [toDegrees_toRadians, toDegrees_toRadians]
    · show (x, y) = (toDegrees (toRadians x), toDegrees (toRadians y))
      rw [toDegrees_toRadians, toDegrees_toRadians]
  | transverseMercator p => exact ⟨rfl, rfl⟩
  | lambertAzimuthalEqualArea p => exact ⟨rfl, rfl⟩
  | lambertConic2SP p => exact ⟨rfl, rfl⟩
  | lambertConic1SPA p => exact ⟨rfl, rfl⟩
  | polarStereographicA p => exact ⟨rfl, rfl⟩
  | obliqueStereographic p => exact ⟨rfl, rfl⟩
  | popVisPseudoMercator p => exact ⟨rfl, rfl⟩
  | albersEqualArea p => exact ⟨rfl, rfl⟩

/-- C6: the four iterative inverses run their latitude recurrences with the
fixed iteration count `MAX_ITERATIONS = 4` and no tolerance test: each
returned latitude is exactly the 4-fold iterate of the corresponding
recurrence on the seed computed by the code (for the Transverse Mercator the
seed `Q_ + e·atanh(e·tanh(Q_))` is itself the recurrence applied to `Q_`). -/
theorem iterative_inverses_fixed_four_steps :
    TransverseMercatorProjection.MAX_ITERATIONS = 4 ∧
    LambertConic2SPProjection.MAX_ITERATIONS = 4 ∧
    LambertConic1SPAProjection.MAX_ITERATIONS = 4 ∧
    ObliqueStereographicProjection.MAX_ITERATIONS = 4 ∧
    (∀ (p : TransverseMercatorProjection) (e n : ℝ),
      (p.to_rad e n).2 = Real.arctan (Real.sinh
        ((p.Q_step (p.inv_Q_ e n))^[4]
          (p.Q_step (p.inv_Q_ e n) (p.inv_Q_ e n))))) ∧
    (∀ (p : LambertConic2SPProjection) (e n : ℝ),
      (p.projected_to_rad e n).2 =
        (lccPhiStep p.ellipsoid_e (p.inv_t_ e n))^[4]
          (Real.pi / 2 - 2 * Real.arctan (p.inv_t_ e n))) ∧
    (∀ (p : LambertConic1SPAProjection) (x y : ℝ),
      (p.projected_to_rad x y).2 =
        (lccPhiStep p.ellipsoid_e (p.inv_t_ x y))^[4]
          (Real.pi / 2 - 2 * Real.arctan (p.inv_t_ x y))) ∧
    (∀ (p : ObliqueStereographicProjection) (x y : ℝ),
      (p.projected_to_rad x y).2 =
        (p.phiStep (p.inv_psi x y))^[4]
          (2 * Real.arctan (Real.exp (p.inv_psi x y)) - Real.pi / 2)) := by
  refine ⟨rfl, rfl, rfl, rfl, ?_, ?_, ?_, ?_⟩ <;> intro p a b <;>
    simp only [TransverseMercatorProjection.to_rad,
      LambertConic2SPProjection.projected_to_rad,
      LambertConic1SPAProjection.projected_to_rad,
      ObliqueStereographicProjection.projected_to_rad,
      TransverseMercatorProjection.MAX_ITERATIONS,
      LambertConic2SPProjection.MAX_ITERATIONS,
      LambertConic1SPAProjection.MAX_ITERATIONS,
      ObliqueStereographicProjection.MAX_ITERATIONS,
      runFor_eq_iterate]

/-! ## Constructing an Oblique Stereographic projection at run time
(`miniproj-ops/src/methods/mod.rs`, claims C10) -/

/-- Modelled from the spec: the `DbContstruct::from_db` implementation for
`ObliqueStereographicParams` is not under `src/` (only the trait declaration
in `types.rs` and its caller `param_builder` in `methods/mod.rs` are).
Per the specification, each family exposes a constructor taking a lookup
`code → Option<value>` that requests exactly the parameter codes it needs;
for the Oblique Stereographic family these are 8802 (lon₀), 8801 (lat₀),
8805 (k₀), 8806 (FE), 8807 (FN), and the record is built through
`ObliqueStereographicParams::new` (whose assertion may abort). -/
def ObliqueStereographicParams.from_db (getter : ℤ → Option ℝ) :
    Except String (Option ObliqueStereographicParams) :=
  match getter 8802, getter 8801, getter 8805, getter 8806, getter 8807 with
  | some lon, some lat, some k, some fe, some fn =>
    (ObliqueStereographicParams.new lon lat k fe fn).map some
  | _, _, _, _, _ => .ok none

/-- The `9809` arm of `param_builder` in `methods/mod.rs` (the arm claim C10
concerns); any other method code is dispatched elsewhere and is not modelled
here, so it yields `none` as the default arm does for unsupported codes. -/
def param_builder_oblique (pmethod_code : ℤ) (getter : ℤ → Option ℝ) :
    Except String (Option ObliqueStereographicParams) :=
  if pmethod_code = 9809 then ObliqueStereographicParams.from_db getter
  else .ok none

/-- `custom_projection` specialised to the Oblique Stereographic arm:
`param_builder` followed by `ProjectionParams::to_projection`, which calls
`ObliqueStereographicProjection::new`. -/
def custom_projection_oblique (pmethod_code : ℤ) (getter : ℤ → Option ℝ)
    (ellipsoid : Ellipsoid) : Except String (Option ObliqueStereographicProjection) :=
  (param_builder_oblique pmethod_code getter).map
    (fun o => o.map (fun params => ObliqueStereographicProjection.new ellipsoid params))

/-- A parameter getter supplying exactly the five Oblique Stereographic
parameter codes. -/
def obliqueGetter (lon lat k fe fn : ℝ) : ℤ → Option ℝ := fun c =>
  if c = 8802 then some lon
  else if c = 8801 then some lat
  else if c = 8805 then some k
  else if c = 8806 then some fe
  else if c = 8807 then some fn
  else none

/-- C10: constructing an Oblique Stereographic projection (directly or via
`custom_projection` with method code 9809) aborts with an assertion failure
when the latitude of natural origin is ≤ 0, and succeeds (assertion passes,
a value is returned) whenever it is > 0. -/
theorem oblique_stereographic_lat_origin_assertion
    (lon lat k fe fn : ℝ) (ell : Ellipsoid) :
    (lat ≤ 0 →
      ObliqueStereographicParams.new lon lat k fe fn =
        Except.error "assertion failed: lat_orig > 0f64" ∧
      custom_projection_oblique 9809 (obliqueGetter lon lat k fe fn) ell =
        Except.error "assertion failed: lat_orig > 0f64") ∧
    (0 < lat →
      ObliqueStereographicParams.new lon lat k fe fn =
        Except.ok { lon_orig := lon, lat_orig := lat, k_orig := k,
                    false_e := fe, false_n := fn } ∧
      custom_projection_oblique 9809 (obliqueGetter lon lat k fe fn) ell =
        Except.ok (some (ObliqueStereographicProjection.new ell
          { lon_orig := lon, lat_orig := lat, k_orig := k,
            false_e := fe, false_n := fn }))) := by
  constructor
  · intro hle
    have hnot : ¬ 0 < lat := not_lt.mpr hle
    constructor
    · simp [ObliqueStereographicParams.new, hnot]
    · simp [custom_projection_oblique, param_builder_oblique,
        ObliqueStereographicParams.from_db, obliqueGetter,
        ObliqueStereographicParams.new, hnot, Except.map]
  · intro hlt
    constructor
    · simp [ObliqueStereographicParams.new, hlt]
    · simp [custom_projection_oblique, param_builder_oblique,
        ObliqueStereographicParams.from_db, obliqueGetter,
        ObliqueStereographicParams.new, hlt, Except.map]

/-- Witness for C10 at the concrete latitudes `-1` (assertion fails) and `1`
(construction succeeds). -/
theorem oblique_stereographic_lat_origin_assertion_witness :
    ObliqueStereographicParams.new 0 (-1) 1 0 0 =
      Except.error "assertion failed: lat_orig > 0f64" ∧
    ObliqueStereographicParams.new 0 1 1 0 0 =
      Except.ok { lon_orig := 0, lat_orig := 1, k_orig := 1,
                  false_e := 0, false_n := 0 } :=
  ⟨((oblique_stereographic_lat_origin_assertion 0 (-1) 1 0 0
      ⟨1, 1, 0, 0, 0⟩).1 (by norm_num)).1,
   ((oblique_stereographic_lat_origin_assertion 0 1 1 0 0
      ⟨1, 1, 0, 0, 0⟩).2 (by norm_num)).1⟩

/-! ## Registry reader VALUES decoding (`miniproj-epsg-registry/src/sql.rs`) -/

/-- A numeric literal token of the SQL dump, carrying the results of the two
Rust `str::parse` calls the reader can make on it: `asI64` is the value of
`parse::<i64>()` (`none` when parsing fails, e.g. for a literal with a
decimal point) and `asF64` the value of `parse::<f64>()`. -/
structure NumLit where
  asI64 : Option ℤ
  asF64 : Option ℝ

/-- `sqlparser::ast::Value`, restricted to the constructors the reader
inspects. -/
inductive SqlValue where
  | null
  | number (n : NumLit)
  | singleQuotedString (s : String)

/-- `sqlparser::ast::Expr`, restricted to the constructors the reader
inspects: plain values and the unary minus operator. -/
inductive SqlExpr where
  | value (v : SqlValue)
  | unaryMinus (e : SqlExpr)

/-- The six kinds of `ColumnData` columns. -/
inductive ColumnKind where
  | stringLike
  | maybeStringLike
  | intLike
  | maybeIntLike
  | double
  | maybeDouble

/-- The cell appended to a column vector by one VALUES expression. -/
inductive PushedCell where
  | str (s : String)
  | optStr (s : Option String)
  | int (n : ℤ)
  | optInt (n : Option ℤ)
  | dbl (x : ℝ)
  | optDbl (x : Option ℝ)

/-- The `match (data, expr)` in `MemoryDb::new` that appends one VALUES
expression to one column (sql.rs lines 280-337); every `panic!` arm
(including `expect` on a failed parse and the final catch-all
`cannot push`) is modelled as an `Except.error`. -/
def pushMemField : ColumnKind → SqlExpr → Except String PushedCell
  | .maybeStringLike, .value .null => .ok (.optStr none)
  | .maybeIntLike, .value .null => .ok (.optInt none)
  | .maybeDouble, .value .null => .ok (.optDbl none)
  | .intLike, .value (.number n) =>
    match n.asI64 with
    | some v => .ok (.int v)
    | none => .error "cannot parse i64"
  | .maybeIntLike, .value (.number n) =>
    match n.asI64 with
    | some v => .ok (.optInt (some v))
    | none => .error "cannot parse i64"
  | .stringLike, .value (.singleQuotedString s) => .ok (.str s)
  | .maybeStringLike, .value (.singleQuotedString s) => .ok (.optStr (some s))
  | .double, .value (.number n) =>
    match n.asF64 with
    | some v => .ok (.dbl v)
    | none => .error "cannot parse f64"
  | .double, .unaryMinus e =>
    match e with
    | .value (.number n) =>
      match n.asF64 with
      | some v => .ok (.dbl (-v))
      | none => .error "cannot parse f64"
    | _ => .error "cannot negate non-numbers"
  | .maybeDouble, .value (.number n) =>
    match n.asF64 with
    | some v => .ok (.optDbl (some v))
    | none => .error "cannot parse f64"
  | .maybeDouble, .unaryMinus e =>
    match e with
    | .value (.number n) =>
      match n.asF64 with
      | some v => .ok (.optDbl (some (-v)))
      | none => .error "cannot parse f64"
    | _ => .error "cannot negate non-numbers"
  | _, _ => .error "cannot push"

/-- C9 (counterexample): a unary-minus-prefixed numeric literal destined for
an integer-typed or nullable-integer column reaches the catch-all arm and
panics, instead of being stored as its negation. -/
theorem sql_minus_into_int_column_panics :
    pushMemField ColumnKind.intLike
        (SqlExpr.unaryMinus (SqlExpr.value (SqlValue.number ⟨some 1, some 1⟩))) =
      Except.error "cannot push" ∧
    pushMemField ColumnKind.maybeIntLike
        (SqlExpr.unaryMinus (SqlExpr.value (SqlValue.number ⟨some 1, some 1⟩))) =
      Except.error "cannot push" :=
  ⟨rfl, rfl⟩

/-- C9 (amended): the reader accepts NULL into nullable columns, numeric
literals into numeric columns and single-quoted strings into text columns;
the unary-minus prefix is stored as its negation only for double-typed
(including nullable-double) columns, while a unary-minus numeric literal
destined for an integer-typed or nullable-integer column aborts in the
catch-all arm. -/
theorem sql_literal_decoding (l : NumLit) (i : ℤ) (q : ℝ) (s : String)
    (hi : l.asI64 = some i) (hq : l.asF64 = some q) :
    pushMemField .maybeStringLike (.value .null) = .ok (.optStr none) ∧
    pushMemField .maybeIntLike (.value .null) = .ok (.optInt none) ∧
    pushMemField .maybeDouble (.value .null) = .ok (.optDbl none) ∧
    pushMemField .intLike (.value (.number l)) = .ok (.int i) ∧
    pushMemField .maybeIntLike (.value (.number l)) = .ok (.optInt (some i)) ∧
    pushMemField .stringLike (.value (.singleQuotedString s)) = .ok (.str s) ∧
    pushMemField .maybeStringLike (.value (.singleQuotedString s)) =
      .ok (.optStr (some s)) ∧
    pushMemField .double (.value (.number l)) = .ok (.dbl q) ∧
    pushMemField .maybeDouble (.value (.number l)) = .ok (.optDbl (some q)) ∧
    pushMemField .double (.unaryMinus (.value (.number l))) = .ok (.dbl (-q)) ∧
    pushMemField .maybeDouble (.unaryMinus (.value (.number l))) =
      .ok (.optDbl (some (-q))) ∧
    pushMemField .intLike (.unaryMinus (.value (.number l))) =
      .error "cannot push" ∧
    pushMemField .maybeIntLike (.unaryMinus (.value (.number l))) =
      .error "cannot push" := by
  obtain ⟨li, lf⟩ := l
  simp only [NumLit.asI64] at hi
  simp only [NumLit.asF64] at hq
  subst hi
  subst hq
  exact ⟨rfl, rfl, rfl, rfl, rfl, rfl, rfl, rfl, rfl, rfl, rfl, rfl, rfl⟩

/-- Witness for the amended C9 statement at the concrete literal `1`. -/
theorem sql_literal_decoding_witness :
    pushMemField ColumnKind.double
        (SqlExpr.unaryMinus (SqlExpr.value (SqlValue.number ⟨some 1, some 1⟩))) =
      Except.ok (PushedCell.dbl (-1)) :=
  (sql_literal_decoding ⟨some 1, some 1⟩ 1 1 "x" rfl
    rfl).2.2.2.2.2.2.2.2.2.1

/-! ## Registry compiler (`miniproj-epsg-registry/src/db.rs`)

Hash maps are modelled as association lists (`List.lookup` for `.get`); the
registry codes of a snapshot are distinct, so map iteration order and
duplicate handling do not affect the key-membership properties below. -/

/-- `sql::Field`: a non-missing cell value handed to the compiler. -/
inductive Field where
  | stringLike (s : String)
  | intLike (n : ℤ)
  | double (x : ℝ)

/-- `u32::try_from` on an `i64` value. -/
def tryU32 (n : ℤ) : Option ℤ :=
  if 0 ≤ n ∧ n < 4294967296 then some n else none

/-- `CrsEntry` from db.rs. -/
inductive CrsEntry where
  | geographic2D (datum : ℤ)
  | projected (conversion : ℤ) (base : ℤ)

/-- One row of `epsg_coordinatereferencesystem`, carrying the columns selected
by the two `get_rows` calls of `gen_parameter_constructors`. -/
structure CrsRow where
  coord_ref_sys_code : Option Field
  coord_ref_sys_name : Option Field
  base_crs_code : Option Field
  projection_conv_code : Option Field
  datum_code : Option Field
  coord_ref_sys_kind : Option Field

/-- The `crs_table` classification of one row (db.rs lines 293-307): keep
geographic 2-D rows (with their datum) and projected rows (with conversion
and base); skip everything else, including rows whose codes fail
`u32::try_from`. -/
def classifyCrsRow (r : CrsRow) : Option (ℤ × CrsEntry) :=
  match r.coord_ref_sys_code, r.base_crs_code, r.projection_conv_code,
      r.datum_code, r.coord_ref_sys_kind with
  | some (.intLike code), _, _, some (.intLike datum_code),
      some (.stringLike "geographic 2D") =>
    match tryU32 code, tryU32 datum_code with
    | some c, some d => some (c, .geographic2D d)
    | _, _ => none
  | some (.intLike code), some (.intLike base_crs_code), some (.intLike conv_code),
      _, some (.stringLike "projected") =>
    match tryU32 code, tryU32 conv_code, tryU32 base_crs_code with
    | some c, some conv, some base => some (c, .projected conv base)
    | _, _, _ => none
  | _, _, _, _, _ => none

/-- The `names_table` classification of one row (db.rs lines 314-319). -/
def classifyNameRow (r : CrsRow) : Option (ℤ × String) :=
  match r.coord_ref_sys_code, r.coord_ref_sys_name with
  | some (.intLike code), some (.stringLike name) =>
    (tryU32 code).map (fun c => (c, name))
  | _, _ => none

/-- One row of `epsg_unitofmeasure` (selected columns). -/
structure UomRow where
  uom_code : Option Field
  factor_b : Option Field
  factor_c : Option Field

/-- The `units` classification of one row (db.rs lines 283-287). -/
def classifyUomRow (r : UomRow) : Option (ℤ × (ℝ × ℝ)) :=
  match r.uom_code, r.factor_b, r.factor_c with
  | some (.intLike u), some (.double b), some (.double c) =>
    (tryU32 u).map (fun u2 => (u2, (b, c)))
  | _, _, _ => none

/-- One row of `epsg_extent` (selected columns). -/
structure ExtentRow where
  extent_code : Option Field
  extent_name : Option Field
  bbox_south_bound_lat : Option Field
  bbox_west_bound_lon : Option Field
  bbox_north_bound_lat : Option Field
  bbox_east_bound_lon : Option Field

/-- The `extents_table` classification of one row (db.rs lines 324-330):
the stored bounding box is `[east, north, west, south]`. -/
def classifyExtentRow (r : ExtentRow) :
    Option (ℤ × (String × (ℝ × ℝ × ℝ × ℝ))) :=
  match r.extent_code, r.extent_name, r.bbox_south_bound_lat,
      r.bbox_west_bound_lon, r.bbox_north_bound_lat, r.bbox_east_bound_lon with
  | some (.intLike code), some (.stringLike name), some (.double lat_s),
      some (.double lon_w), some (.double lat_n), some (.double lon_e) =>
    (tryU32 code).map (fun c => (c, (name, (lon_e, lat_n, lon_w, lat_s))))
  | _, _, _, _, _, _ => none

/-- One row of `epsg_usage` (selected columns). -/
structure UsageRow where
  object_code : Option Field
  extent_code : Option Field

/-- `HashMap::entry(k).and_modify(|v| v.push(x)).or_insert(vec![x])` on an
association-list model of a map to vectors. -/
def entryPush {α : Type} : List (ℤ × List α) → ℤ → α → List (ℤ × List α)
  | [], k, v => [(k, [v])]
  | (k2, vs) :: rest, k, v =>
    if k2 = k then (k2, vs ++ [v]) :: rest else (k2, vs) :: entryPush rest k v

/-- The `usages_table` accumulation (db.rs lines 333-353): for each usage row
whose codes convert and whose extent resolves, push the extent onto the
object's list. -/
def buildUsages (extents : List (ℤ × (String × (ℝ × ℝ × ℝ × ℝ))))
    (rows : List UsageRow) : List (ℤ × List (String × (ℝ × ℝ × ℝ × ℝ))) :=
  rows.foldl (fun m r =>
    match r.object_code, r.extent_code with
    | some (.intLike oc), some (.intLike ec) =>
      match tryU32 oc, tryU32 ec with
      | some oc2, some ec2 =>
        match extents.lookup ec2 with
        | some v => entryPush m oc2 v
        | none => m
      | _, _ => m
    | _, _ => m) []

/-- One row of `epsg_coordoperation` (selected columns). -/
structure OpRow where
  coord_op_code : Option Field
  coord_op_method_code : Option Field

/-- The `op_table` classification of one row (db.rs lines 359-374): rows with
both codes present are kept, and a failing `u32::try_from` is an error that
aborts the build. -/
def classifyOpRow (r : OpRow) : Option (Except String (ℤ × ℤ)) :=
  match r.coord_op_code, r.coord_op_method_code with
  | some (.intLike oc), some (.intLike mc) =>
    match tryU32 oc, tryU32 mc with
    | some a, some b => some (.ok (a, b))
    | _, _ => some (.error "TryFromIntError")
  | _, _ => none

/-- `collect::<Result<_, _>>`: the first error aborts. -/
def collectExcept {α : Type} : List (Except String α) → Except String (List α)
  | [] => .ok []
  | e :: rest =>
    match e with
    | .error msg => .error msg
    | .ok x =>
      match collectExcept rest with
      | .error msg => .error msg
      | .ok xs => .ok (x :: xs)

/-- One row of `epsg_coordoperationparamvalue` (selected columns). -/
structure ParamValueRow where
  coord_op_code : Option Field
  parameter_code : Option Field
  parameter_value : Option Field
  uom_code : Option Field

/-- One step of the `paramvalues` accumulation (db.rs lines 381-395): a value
with UoM 9110 is decoded by `epsg_9110_to_rad`; otherwise the UoM factors are
looked up and the value scaled by `factor_b / factor_c` (rows whose UoM is
unknown are dropped); a failing `u32::try_from` aborts the build. -/
def paramValueStep (units : List (ℤ × (ℝ × ℝ)))
    (m : List (ℤ × List (ℤ × ℝ))) (r : ParamValueRow) :
    Except String (List (ℤ × List (ℤ × ℝ))) :=
  match r.coord_op_code, r.parameter_code, r.parameter_value, r.uom_code with
  | some (.intLike oc), some (.intLike pc), some (.double v), some (.intLike 9110) =>
    match tryU32 oc, tryU32 pc with
    | some oc2, some pc2 => .ok (entryPush m oc2 (pc2, epsg_9110_to_rad v))
    | _, _ => .error "TryFromIntError"
  | some (.intLike oc), some (.intLike pc), some (.double v), some (.intLike uom) =>
    match tryU32 uom with
    | some uom2 =>
      match units.lookup uom2 with
      | some (factor_b, factor_c) =>
        match tryU32 oc, tryU32 pc with
        | some oc2, some pc2 => .ok (entryPush m oc2 (pc2, v * factor_b / factor_c))
        | _, _ => .error "TryFromIntError"
      | none => .ok m
    | none => .error "TryFromIntError"
  | _, _, _, _ => .ok m

/-- One row of `epsg_datum` (selected columns). -/
structure DatumRow where
  datum_code : Option Field
  ellipsoid_code : Option Field
  prime_meridian_code : Option Field

/-- The `datum_table` classification of one row (db.rs lines 403-415): only
datums on the Greenwich meridian 8901 whose ellipsoid is known are kept;
other resolvable rows are dropped, and a failing `u32::try_from` aborts. -/
def classifyDatumRow (ellipsoids : List (ℤ × Ellipsoid)) (r : DatumRow) :
    Option (Except String (ℤ × (ℤ × ℤ))) :=
  match r.datum_code, r.ellipsoid_code, r.prime_meridian_code with
  | some (.intLike code), some (.intLike ell), some (.intLike pm) =>
    match tryU32 code, tryU32 ell, tryU32 pm with
    | some c, some e, some 8901 =>
      if (ellipsoids.lookup e).isSome then some (.ok (c, (e, 8901))) else none
    | some _, some _, some _ => none
    | _, _, _ => some (.error "TryFromIntError")
  | _, _, _ => none

/-- One row of `epsg_datumensemblemember` (selected columns). -/
structure EnsembleRow where
  datum_ensemble_code : Option Field
  datum_code : Option Field

/-- One step of the `datum_ensemble_member_table` accumulation (db.rs lines
419-439): missing codes or a failing `u32::try_from` abort the build. -/
def ensembleStep (m : List (ℤ × List ℤ)) (r : EnsembleRow) :
    Except String (List (ℤ × List ℤ)) :=
  match r.datum_ensemble_code, r.datum_code with
  | some (.intLike e), some (.intLike d) =>
    match tryU32 e, tryU32 d with
    | some e2, some d2 => .ok (entryPush m e2 d2)
    | _, _ => .error "TryFromIntError"
  | _, _ => .error "Missing code"

/-- The input registry snapshot, as the eight row sets
`gen_parameter_constructors` selects from the reader; a `none` table models a
missing table (or missing selected column), which the compiler turns into a
build error. -/
structure RegistrySnapshot where
  unitofmeasure : Option (List UomRow)
  coordinatereferencesystem : Option (List CrsRow)
  extent : Option (List ExtentRow)
  usage : Option (List UsageRow)
  coordoperation : Option (List OpRow)
  coordoperationparamvalue : Option (List ParamValueRow)
  datum : Option (List DatumRow)
  datumensemblemember : Option (List EnsembleRow)

/-- The four generated dispatch tables, keyed by EPSG CRS code. -/
structure GenMaps where
  projections : List (ℤ × String)
  ellipsoids_by_crs : List (ℤ × ℤ)
  names : List (ℤ × String)
  areas : List (ℤ × List (ℝ × ℝ × ℝ × ℝ))

/-- The source string emitted for every geographic 2-D CRS (db.rs line 453). -/
def identityProjectionEntry : String := "&IdentityProjection as &dyn Projection"

/-- The `if let Some(areas) = areas` block shared by both emit arms. -/
def appendAreas (code : ℤ) (areas : Option (List (String × (ℝ × ℝ × ℝ × ℝ))))
    (rest : List (ℤ × List (ℝ × ℝ × ℝ × ℝ))) : List (ℤ × List (ℝ × ℝ × ℝ × ℝ)) :=
  match areas with
  | some a => (code, a.map (fun e => e.2)) :: rest
  | none => rest

/-- `std::iter::once(datum).chain(ensemble members).filter_map(datum_table.get)
.filter_map(|(e, _)| ellipsoids.get(e)).next()` (db.rs lines 472-481): the
first datum candidate resolving to a known ellipsoid. -/
def firstEllipsoid (datum_table : List (ℤ × (ℤ × ℤ)))
    (ellipsoids : List (ℤ × Ellipsoid)) : List ℤ → Option (Ellipsoid × ℤ)
  | [] => none
  | d :: rest =>
    match datum_table.lookup d with
    | some (e, _) =>
      match ellipsoids.lookup e with
      | some ell => some (ell, e)
      | none => firstEllipsoid datum_table ellipsoids rest
    | none => firstEllipsoid datum_table ellipsoids rest

/-- The guard chain of the `CrsEntry::Projected` emit arm (db.rs lines
467-497): resolve the base CRS to a geographic 2-D entry, the datum chain to
an ellipsoid, the conversion to parameter values and a method code, and the
method code to a supported constructor; any failure skips the CRS.  On
success, return the emitted constructor string and the ellipsoid code. -/
def projectedEntry (crs_table : List (ℤ × CrsEntry))
    (paramvalues : List (ℤ × List (ℤ × ℝ))) (op_table : List (ℤ × ℤ))
    (datum_table : List (ℤ × (ℤ × ℤ))) (ensembles : List (ℤ × List ℤ))
    (supporteds : List (ℤ × (List (ℤ × ℝ) → Ellipsoid → String)))
    (ellipsoids : List (ℤ × Ellipsoid)) (conversion base : ℤ) :
    Option (String × ℤ) :=
  match crs_table.lookup base with
  | some (.geographic2D datum) =>
    match firstEllipsoid datum_table ellipsoids
        (datum :: ((ensembles.lookup datum).getD [])) with
    | some (ell, ellipsoid_code) =>
      match paramvalues.lookup conversion with
      | some param_values =>
        match op_table.lookup conversion with
        | some op_code =>
          match supporteds.find? (fun v => v.1 = op_code) with
          | some (_, conv) =>
            some ("&" ++ conv param_values ell ++ " as &dyn Projection",
              ellipsoid_code)
          | none => none
        | none => none
      | none => none
    | none => none
  | _ => none

/-- The emit loop of `gen_parameter_constructors` (db.rs lines 446-517) over
the classified CRS entries: geographic 2-D CRSes are mapped to the identity
projection (with a name and optional areas, but no ellipsoid entry);
projected CRSes passing the guard chain get a constructor entry, an
ellipsoid entry, a name and optional areas; failing projected CRSes are
skipped entirely. -/
def emitCrs (crs_table : List (ℤ × CrsEntry)) (names_table : List (ℤ × String))
    (usages_table : List (ℤ × List (String × (ℝ × ℝ × ℝ × ℝ))))
    (paramvalues : List (ℤ × List (ℤ × ℝ))) (op_table : List (ℤ × ℤ))
    (datum_table : List (ℤ × (ℤ × ℤ))) (ensembles : List (ℤ × List ℤ))
    (supporteds : List (ℤ × (List (ℤ × ℝ) → Ellipsoid → String)))
    (ellipsoids : List (ℤ × Ellipsoid)) :
    List (ℤ × CrsEntry) → GenMaps
  | [] => ⟨[], [], [], []⟩
  | (code, crs) :: rest =>
    let m := emitCrs crs_table names_table usages_table paramvalues op_table
      datum_table ensembles supporteds ellipsoids rest
    let name := (names_table.lookup code).getD "Unknown Coordinate Reference System"
    let areas := usages_table.lookup code
    match crs with
    | .geographic2D _ =>
      { projections := (code, identityProjectionEntry) :: m.projections,
        ellipsoids_by_crs := m.ellipsoids_by_crs,
        names := (code, name) :: m.names,
        areas := appendAreas code areas m.areas }
    | .projected conversion base =>
      match projectedEntry crs_table paramvalues op_table datum_table ensembles
          supporteds ellipsoids conversion base with
      | some (entry, ellipsoid_code) =>
        { projections := (code, entry) :: m.projections,
          ellipsoids_by_crs := (code, ellipsoid_code) :: m.ellipsoids_by_crs,
          names := (code, name) :: m.names,
          areas := appendAreas code areas m.areas }
      | none => m

/-- `gen_parameter_constructors` (db.rs lines 274-531): build the lookup
tables from the snapshot, check the two `assert!` statements, and run the
emit loop.  Build errors and assertion failures are `Except.error`. -/
def gen_parameter_constructors (db : RegistrySnapshot)
    (supporteds : List (ℤ × (List (ℤ × ℝ) → Ellipsoid → String)))
    (ellipsoids : List (ℤ × Ellipsoid)) : Except String GenMaps :=
  match db.unitofmeasure with
  | none => .error "No UOM table"
  | some uomRows =>
    match db.coordinatereferencesystem with
    | none => .error "No CRS table"
    | some crsRows =>
      if (crsRows.filterMap classifyCrsRow).isEmpty then
        .error "assertion failed: !crs_table.is_empty()"
      else
        match db.extent with
        | none => .error "No Extent Table"
        | some extentRows =>
          match db.usage with
          | none => .error "No Usage Table"
          | some usageRows =>
            match db.coordoperation with
            | none => .error "No Op table"
            | some opRows =>
              match collectExcept (opRows.filterMap classifyOpRow) with
              | .error msg => .error msg
              | .ok op_table =>
                match db.coordoperationparamvalue with
                | none => .error "No Param Value table"
                | some pvRows =>
                  match pvRows.foldlM
                      (paramValueStep (uomRows.filterMap classifyUomRow)) [] with
                  | .error msg => .error msg
                  | .ok paramvalues =>
                    if op_table.isEmpty then
                      .error "assertion failed: !op_table.is_empty()"
                    else
                      match db.datum with
                      | none => .error "No Datum table"
                      | some datumRows =>
                        match collectExcept
                            (datumRows.filterMap (classifyDatumRow ellipsoids)) with
                        | .error msg => .error msg
                        | .ok datum_table =>
                          match db.datumensemblemember with
                          | none => .error "No Datum Ensemble Member table"
                          | some ensembleRows =>
                            match ensembleRows.foldlM ensembleStep [] with
                            | .error msg => .error msg
                            | .ok ensembles =>
                              .ok (emitCrs (crsRows.filterMap classifyCrsRow)
                                (crsRows.filterMap classifyNameRow)
                                (buildUsages (extentRows.filterMap classifyExtentRow)
                                  usageRows)
                                paramvalues op_table datum_table ensembles
                                supporteds ellipsoids
                                (crsRows.filterMap classifyCrsRow))

theorem emitCrs_totality
    (ct : List (ℤ × CrsEntry)) (nt : List (ℤ × String))
    (ut : List (ℤ × List (String × (ℝ × ℝ × ℝ × ℝ))))
    (pv : List (ℤ × List (ℤ × ℝ))) (ot : List (ℤ × ℤ))
    (dt : List (ℤ × (ℤ × ℤ))) (et : List (ℤ × List ℤ))
    (supp : List (ℤ × (List (ℤ × ℝ) → Ellipsoid → String)))
    (ells : List (ℤ × Ellipsoid)) :
    ∀ (l : List (ℤ × CrsEntry)) (cv : ℤ × String),
      cv ∈ (emitCrs ct nt ut pv ot dt et supp ells l).projections →
      (∃ nm, (cv.1, nm) ∈ (emitCrs ct nt ut pv ot dt et supp ells l).names) ∧
      (cv.2 ≠ identityProjectionEntry →
        ∃ ec, (cv.1, ec) ∈ (emitCrs ct nt ut pv ot dt et supp ells l).ellipsoids_by_crs) := by
  intro l
  induction l with
  | nil =>
    intro cv h
    simp [emitCrs] at h
  | cons hd tl ih =>
    obtain ⟨code, crs⟩ := hd
    intro cv hcv
    cases crs with
    | geographic2D d =>
      simp only [emitCrs] at hcv ⊢
      rcases List.mem_cons.mp hcv with heq | hmem
      · subst heq
        exact ⟨⟨_, List.mem_cons_self _ _⟩, fun hne => absurd rfl hne⟩
      · obtain ⟨⟨nm, hnm⟩, himp⟩ := ih cv hmem
        exact ⟨⟨nm, List.mem_cons_of_mem _ hnm⟩, himp⟩
    | projected conversion base =>
      simp only [emitCrs] at hcv ⊢
      rcases hpe : projectedEntry ct pv ot dt et supp ells conversion base with
        _ | ⟨entry, ec⟩
      · rw [hpe] at hcv
        exact ih cv hcv
      · rw [hpe] at hcv
        rcases List.mem_cons.mp hcv with heq | hmem
        · subst heq
          exact ⟨⟨_, List.mem_cons_self _ _⟩,
            fun _ => ⟨ec, List.mem_cons_self _ _⟩⟩
        · obtain ⟨⟨nm, hnm⟩, himp⟩ := ih cv hmem
          exact ⟨⟨nm, List.mem_cons_of_mem _ hnm⟩,
            fun hne => (himp hne).imp (fun _ h2 => List.mem_cons_of_mem _ h2)⟩

/-- C4: registry totality.  For every input snapshot on which the compiler
succeeds, every code that is a key of the generated `PROJECTIONS` table is
also a key of `NAMES`, and is a key of `ELLIPSOIDS_BY_CRS` unless it resolves
to the identity projection. -/
theorem registry_totality (db : RegistrySnapshot)
    (supporteds : List (ℤ × (List (ℤ × ℝ) → Ellipsoid → String)))
    (ellipsoids : List (ℤ × Ellipsoid)) (m : GenMaps)
    (hm : gen_parameter_constructors db supporteds ellipsoids = Except.ok m) :
    ∀ cv ∈ m.projections,
      (∃ nm, (cv.1, nm) ∈ m.names) ∧
      (cv.2 ≠ identityProjectionEntry →
        ∃ ec, (cv.1, ec) ∈ m.ellipsoids_by_crs) := by
  unfold gen_parameter_constructors at hm
  repeat' split at hm
  all_goals first
    | exact absurd hm (fun h => Except.noConfusion h)
    | · injection hm with hm
        subst hm
        intro cv hcv
        exact emitCrs_totality _ _ _ _ _ _ _ _ _ _ cv hcv

/-- The snapshot for the C4 witness: one geographic 2-D row (code 4258) and a
nonempty operation table. -/
def totalitySnapshot : RegistrySnapshot :=
  { unitofmeasure := some [],
    coordinatereferencesystem := some
      [{ coord_ref_sys_code := some (.intLike 4258),
         coord_ref_sys_name := some (.stringLike "ETRS89"),
         base_crs_code := none,
         projection_conv_code := none,
         datum_code := some (.intLike 6258),
         coord_ref_sys_kind := some (.stringLike "geographic 2D") }],
    extent := some [],
    usage := some [],
    coordoperation := some
      [{ coord_op_code := some (.intLike 16031),
         coord_op_method_code := some (.intLike 9807) }],
    coordoperationparamvalue := some [],
    datum := some [],
    datumensemblemember := some [] }

/-- The tables the compiler generates from `totalitySnapshot`. -/
def totalityMaps : GenMaps :=
  { projections := [(4258, identityProjectionEntry)],
    ellipsoids_by_crs := [],
    names := [(4258, "ETRS89")],
    areas := [] }

/-- Witness for C4 on a concrete snapshot. -/
theorem registry_totality_witness :
    gen_parameter_constructors totalitySnapshot [] [] = Except.ok totalityMaps ∧
    ∃ nm, ((4258 : ℤ), nm) ∈ totalityMaps.names := by
  refine ⟨rfl, ?_⟩
  exact (registry_totality totalitySnapshot [] [] totalityMaps rfl
    (4258, identityProjectionEntry) (List.mem_singleton.mpr rfl)).1

/-- The snapshot for the C3 counterexample: a single geographic 2-D row with
code 4267 (and a nonempty operation table); no row contributes code 4326. -/
def c3Snapshot : RegistrySnapshot :=
  { unitofmeasure := some [],
    coordinatereferencesystem := some
      [{ coord_ref_sys_code := some (.intLike 4267),
         coord_ref_sys_name := some (.stringLike "NAD27"),
         base_crs_code := none,
         projection_conv_code := none,
         datum_code := some (.intLike 6267),
         coord_ref_sys_kind := some (.stringLike "geographic 2D") }],
    extent := some [],
    usage := some [],
    coordoperation := some
      [{ coord_op_code := some (.intLike 16031),
         coord_op_method_code := some (.intLike 9807) }],
    coordoperationparamvalue := some [],
    datum := some [],
    datumensemblemember := some [] }

/-- The tables the compiler generates from `c3Snapshot`. -/
def c3Maps : GenMaps :=
  { projections := [(4267, identityProjectionEntry)],
    ellipsoids_by_crs := [],
    names := [(4267, "NAD27")],
    areas := [] }

/-- C3 (counterexample): on a snapshot whose CRS table contributes only code
4267, the compiler succeeds but its generated `PROJECTIONS` table has no
entry for code 4326: no unconditional 4326 entry is emitted. -/
theorem compiler_no_unconditional_4326 :
    gen_parameter_constructors c3Snapshot [] [] = Except.ok c3Maps ∧
    ∀ v, ((4326 : ℤ), v) ∉ c3Maps.projections := by
  refine ⟨rfl, ?_⟩
  intro v hv
  have h := List.mem_singleton.mp hv
  have h1 : (4326 : ℤ) = 4267 := congrArg Prod.fst h
  exact absurd h1 (by decide)

theorem emitCrs_geographic_mem
    (ct : List (ℤ × CrsEntry)) (nt : List (ℤ × String))
    (ut : List (ℤ × List (String × (ℝ × ℝ × ℝ × ℝ))))
    (pv : List (ℤ × List (ℤ × ℝ))) (ot : List (ℤ × ℤ))
    (dt : List (ℤ × (ℤ × ℤ))) (et : List (ℤ × List ℤ))
    (supp : List (ℤ × (List (ℤ × ℝ) → Ellipsoid → String)))
    (ells : List (ℤ × Ellipsoid)) :
    ∀ (l : List (ℤ × CrsEntry)) (code d : ℤ),
      (code, CrsEntry.geographic2D d) ∈ l →
      (code, identityProjectionEntry) ∈
        (emitCrs ct nt ut pv ot dt et supp ells l).projections := by
  intro l
  induction l with
  | nil =>
    intro code d h
    cases h
  | cons hd tl ih =>
    intro code d h
    obtain ⟨c2, crs2⟩ := hd
    rcases List.mem_cons.mp h with heq | hmem
    · rw [Prod.mk.injEq] at heq
      obtain ⟨h1, h2⟩ := heq
      subst h1
      subst h2
      simp only [emitCrs]
      exact List.mem_cons_self _ _
    · have hrec := ih code d hmem
      cases crs2 with
      | geographic2D d2 =>
        simp only [emitCrs]
        exact List.mem_cons_of_mem _ hrec
      | projected conversion base =>
        simp only [emitCrs]
        rcases hpe : projectedEntry ct pv ot dt et supp ells conversion base with
          _ | ⟨entry, ec⟩
        · exact hrec
        · exact List.mem_cons_of_mem _ hrec

/-- C3 (amended): whenever some row of the snapshot's
`epsg_coordinatereferencesystem` table is classified as a geographic 2-D CRS
with code 4326, the compiler emits an entry mapping 4326 to the identity
projection; when no row contributes 4326, no entry for 4326 is emitted (see
the counterexample). -/
theorem compiler_4326_identity_when_contributed (db : RegistrySnapshot)
    (supporteds : List (ℤ × (List (ℤ × ℝ) → Ellipsoid → String)))
    (ellipsoids : List (ℤ × Ellipsoid)) (m : GenMaps)
    (crsRows : List CrsRow) (d : ℤ)
    (hrows : db.coordinatereferencesystem = some crsRows)
    (hm : gen_parameter_constructors db supporteds ellipsoids = Except.ok m)
    (hmem : ((4326 : ℤ), CrsEntry.geographic2D d) ∈
      crsRows.filterMap classifyCrsRow) :
    ((4326 : ℤ), identityProjectionEntry) ∈ m.projections := by
  obtain ⟨t1, t2, t3, t4, t5, t6, t7, t8⟩ := db
  simp only at hrows
  subst hrows
  unfold gen_parameter_constructors at hm
  dsimp only at hm
  repeat' split at hm
  all_goals first
    | exact absurd hm (fun h => Except.noConfusion h)
    | · injection hm with hm
        subst hm
        exact emitCrs_geographic_mem _ _ _ _ _ _ _ _ _ _ 4326 d hmem

/-- The snapshot for the amended C3 witness: the geographic 2-D row for
EPSG 4326 is present. -/
def wgs84Snapshot : RegistrySnapshot :=
  { unitofmeasure := some [],
    coordinatereferencesystem := some
      [{ coord_ref_sys_code := some (.intLike 4326),
         coord_ref_sys_name := some (.stringLike "WGS 84"),
         base_crs_code := none,
         projection_conv_code := none,
         datum_code := some (.intLike 6326),
         coord_ref_sys_kind := some (.stringLike "geographic 2D") }],
    extent := some [],
    usage := some [],
    coordoperation := some
      [{ coord_op_code := some (.intLike 16031),
         coord_op_method_code := some (.intLike 9807) }],
    coordoperationparamvalue := some [],
    datum := some [],
    datumensemblemember := some [] }

/-- The tables the compiler generates from `wgs84Snapshot`. -/
def wgs84Maps : GenMaps :=
  { projections := [(4326, identityProjectionEntry)],
    ellipsoids_by_crs := [],
    names := [(4326, "WGS 84")],
    areas := [] }

/-- Witness for the amended C3 statement on a concrete snapshot containing
the 4326 row. -/
theorem compiler_4326_identity_when_contributed_witness :
    gen_parameter_constructors wgs84Snapshot [] [] = Except.ok wgs84Maps ∧
    ((4326 : ℤ), identityProjectionEntry) ∈ wgs84Maps.projections := by
  refine ⟨rfl, ?_⟩
  exact compiler_4326_identity_when_contributed wgs84Snapshot [] [] wgs84Maps
    _ 6326 rfl rfl
    (show ((4326 : ℤ), CrsEntry.geographic2D 6326) ∈
        [((4326 : ℤ), CrsEntry.geographic2D 6326)] from
      List.mem_singleton.mpr rfl)

end

end Miniproj
